import Mathlib

/-!
Verification of the anomaly-dashboard core of the
XAI_for_IoT_Anomaly_Detection_in_Smart_Homes_With_TinyLlama repository.

The development shallowly embeds the two Python source files:
  * `streamlit_app.py` — data loading with fallbacks, the per-rerun session
    workflow (date confirmation, anomaly query, anomaly selection,
    explanation request), and the rendered feedback;
  * `setup_streamlit.py` — the `save_for_streamlit` helper.

External collaborators (`get_anomalies_by_date`, `explain_single_anomaly`)
are parameters of the model: the theorems quantify over their behaviour.
Streamlit specifics are embedded as follows: `st.session_state` is an
explicit record threaded through one script rerun; widget values are inputs
of the rerun; `st.error`/`st.warning`/`st.info`/`st.success` and the
rendered tables/metrics are an output message list; `st.stop` is a halted
outcome that renders nothing further.
-/

namespace IoTDashboard

/-- One scored sensor-activity event (a row of the prediction dataframe).
`timestamp` is `none` when the `Timestamp` cell is NaN/missing; `activity`
and `confidence` are `none` when the row lacks an `Activity` resp.
`Prediction_Confidence` column (pandas `Series.get` returns the default
then).  Extra feature columns are carried opaquely. -/
structure ResultRecord where
  timestamp : Option String
  activity : Option String
  confidence : Option Rat
  features : List (String × String)
deriving Repr, DecidableEq

/-- The prediction dataframe: an ordered collection of rows. -/
abbrev DataFrame := List ResultRecord

/-! ## Data Loader (`streamlit_app.py` lines 24–34 and 57–68) -/

/-- Environment the loading code observes: whether each pickle file exists
(and its content), whether `import __main__` succeeds, and which in-memory
tables `__main__` carries. -/
structure LoadEnv where
  fullPklExists : Bool
  fullPklData : DataFrame
  testPklExists : Bool
  testPklData : DataFrame
  importMainOk : Bool
  mainFull : Option DataFrame
  mainTest : Option DataFrame

/-- `load_prediction_data` (lines 25–34): try `full_pivot_df.pkl`, then
`test_pivot_df.pkl`, else `None`. -/
def load_prediction_data (env : LoadEnv) : Option DataFrame :=
  if env.fullPklExists then some env.fullPklData
  else if env.testPklExists then some env.testPklData
  else none

/-- The `__main__.full_pivot_df` source as the fallback block sees it
(line 63–64): available only if the import succeeded and the attribute is
present. -/
def mainFullSource (env : LoadEnv) : Option DataFrame :=
  if env.importMainOk then env.mainFull else none

/-- The `__main__.test_pivot_df` source (line 65–66). -/
def mainTestSource (env : LoadEnv) : Option DataFrame :=
  if env.importMainOk then env.mainTest else none

/-- Module top level, lines 57–68: `prediction_df = load_prediction_data()`;
if `None`, fall back to `__main__.full_pivot_df`, then
`__main__.test_pivot_df` (exceptions from the import swallowed). -/
def loadResultStore (env : LoadEnv) : Option DataFrame :=
  match load_prediction_data env with
  | some df => some df
  | none =>
    match mainFullSource env with
    | some df => some df
    | none => mainTestSource env

/-- The four data sources in the priority order the spec names:
snapshot file `full_pivot_df.pkl`, snapshot file `test_pivot_df.pkl`,
in-memory `__main__.full_pivot_df`, in-memory `__main__.test_pivot_df`.
This list follows the spec's words; `loadResultStore` follows the code. -/
def loaderSources (env : LoadEnv) : List (Option DataFrame) :=
  [ if env.fullPklExists then some env.fullPklData else none
  , if env.testPklExists then some env.testPklData else none
  , mainFullSource env
  , mainTestSource env ]

/-- First source of a priority list that resolves, if any. -/
def firstSome : List (Option DataFrame) → Option DataFrame
  | [] => none
  | some a :: _ => some a
  | none :: rest => firstSome rest

/-! ## Function loading (`streamlit_app.py` lines 36–55 and 70–85) -/

/-- Environment the function-resolution code observes: whether
`from anomaly_functions import …` succeeds, whether `import code_new`
succeeds, and which of the two required callables each namespace defines
(`getattr(…, name, None) is not None`). -/
structure FnEnv where
  anomalyFunctionsOk : Bool
  codeNewImportOk : Bool
  codeNewHasGet : Bool
  codeNewHasExplain : Bool
  mainHasGet : Bool
  mainHasExplain : Bool

/-- `load_functions` (lines 37–55): try `code_new`, else `__main__`, each
via `getattr` with default `None`; report whether both callables were
found. -/
def load_functions (f : FnEnv) : Bool × Bool :=
  if f.codeNewImportOk then (f.codeNewHasGet, f.codeNewHasExplain)
  else (f.mainHasGet, f.mainHasExplain)

/-- Lines 71–85: the import of `anomaly_functions`, with `load_functions`
as the fallback; `true` iff both `get_anomalies_by_date` and
`explain_single_anomaly` resolved (otherwise the script errors and stops).
-/
def functionsResolved (f : FnEnv) : Bool :=
  if f.anomalyFunctionsOk then true
  else
    let (g, e) := load_functions f
    g && e

/-! ## Script start-up outcome (lines 57–101) -/

/-- Which `st.stop` the start-up code reached, if any. -/
inductive HaltReason where
  | functionsMissing
  | dataMissing
deriving Repr, DecidableEq

/-- Outcome of the start-up section: either the script halted (lines 78–85
or 88–101, before the date widget on line 105 is ever created), or it
proceeds with a resolved prediction dataframe. -/
inductive InitResult where
  | halted (r : HaltReason)
  | ready (df : DataFrame)
deriving Repr, DecidableEq

/-- Lines 57–101 in order: data is loaded first (lines 57–68), but the
missing-functions check (lines 71–85) stops the script before the
missing-data check (lines 88–101) does. -/
def scriptInit (env : LoadEnv) (f : FnEnv) : InitResult :=
  let pdf := loadResultStore env
  if functionsResolved f then
    match pdf with
    | some df => .ready df
    | none => .halted .dataMissing
  else .halted .functionsMissing

/-! ## Rendered rows and metrics (lines 142–156 and 234–244) -/

/-- One row of the `anomaly_summary` table (lines 148–153).  `confidence`
is the numeric value handed to the `:.2%` formatter (the percent rendering
itself is presentation and not modelled). -/
structure SummaryRow where
  index : Nat
  time : String
  activity : String
  confidence : Rat
deriving Repr, DecidableEq

/-- Lines 144–153 for a single row: `Timestamp` is required; `Activity`
defaults to `"Unknown"` and `Prediction_Confidence` to `0` via
`Series.get`; a NaN timestamp renders as `"N/A"` (timestamp formatting is
otherwise the identity here). -/
def summaryRow (idx : Nat) (r : ResultRecord) : SummaryRow :=
  { index := idx
  , time := match r.timestamp with | some t => t | none => "N/A"
  , activity := r.activity.getD "Unknown"
  , confidence := r.confidence.getD 0 }

/-- The summary table built by the `for idx, (_, anomaly) in
enumerate(anomalies.iterrows())` loop (lines 142–153). -/
def anomaly_summary (anomalies : List ResultRecord) : List SummaryRow :=
  anomalies.enum.map (fun p => summaryRow p.1 p.2)

/-- The three `st.metric` values of the anomaly-details block
(lines 238–244), with the same `.get` defaults as the summary table. -/
structure DetailMetrics where
  timestamp : String
  activity : String
  confidence : Rat
deriving Repr, DecidableEq

/-- Lines 240–244 applied to `result['anomaly']`. -/
def anomalyDetails (r : ResultRecord) : DetailMetrics :=
  { timestamp := match r.timestamp with | some t => t | none => "N/A"
  , activity := r.activity.getD "Unknown"
  , confidence := r.confidence.getD 0 }

/-! ## Session workflow: one Streamlit rerun of lines 103–259 -/

/-- The keys of `st.session_state` that the main flow reads and writes.
`selected_anomaly` holds the last committed generator result. -/
structure GenResult where
  explanation : Option String
  anomaly : Option ResultRecord
  extra : List (String × String)
deriving Repr, DecidableEq

/-- `st.session_state` as the main flow uses it. -/
structure SessionState where
  selected_date : Option String
  anomalies : Option (List ResultRecord)
  selected_anomaly : Option GenResult
  selected_index : Option Nat
deriving Repr, DecidableEq

/-- Widget values of one rerun: the date widget (already formatted by
`strftime("%Y-%m-%d")`), the two buttons, and the selectbox choice. -/
structure RunInput where
  date_input : String
  findClicked : Bool
  pick : Nat
  generateClicked : Bool

/-- SHAP-related attributes of `__main__` as lines 178–185 observe them
(each `getattr(…, name, None)`); `importOk = false` models the swallowed
failure of the import, which leaves all four local variables `None`. -/
structure MainEnv where
  importOk : Bool
  shap_values : Option String
  X : Option String
  explainer : Option String
  scaler : Option String

/-- The four keyword arguments passed to `explain_single_anomaly`
(lines 191–194). -/
structure AuxCtx where
  shap_values : Option String
  X : Option String
  explainer : Option String
  scaler : Option String
deriving Repr, DecidableEq

/-- Lines 172–185: locals start as `None`; on a successful import each is
`getattr(__main__, …, None)`; an import failure is swallowed (`except:
pass`), leaving all `None`. -/
def gatherShap (m : MainEnv) : AuxCtx :=
  if m.importOk then
    { shap_values := m.shap_values, X := m.X
    , explainer := m.explainer, scaler := m.scaler }
  else { shap_values := none, X := none, explainer := none, scaler := none }

/-- One recorded invocation of the external `explain_single_anomaly`. -/
structure ExplainCall where
  date : String
  index : Nat
  aux : AuxCtx
deriving Repr, DecidableEq

/-- External collaborators, as black boxes: the anomaly query may return a
dataframe or `None`, or raise; the explanation generator may return a
result dict (possibly falsy/missing keys, modelled by `Option GenResult`)
or raise. -/
structure Collab where
  query : String → DataFrame → Except String (Option (List ResultRecord))
  explain : String → Nat → DataFrame → AuxCtx → Except String (Option GenResult)

/-- What one rerun renders, with `st.error`/`st.warning`/`st.info`/
`st.success`, the summary dataframe, the explanation report, and the three
detail metrics distinguished. -/
inductive Msg where
  | error (s : String)
  | warning (s : String)
  | info (s : String)
  | success (s : String)
  | table (rows : List SummaryRow)
  | report (s : String)
  | metricTimestamp (s : String)
  | metricActivity (s : String)
  | metricConfidence (c : Rat)
deriving Repr, DecidableEq

/-- Whether a rendered message is an `st.error`. -/
def Msg.isError : Msg → Bool
  | .error _ => true
  | _ => false

/-- Observable outcome of one rerun: the session state afterwards, the
rendered messages in order, and the external calls that were made. -/
structure RunResult where
  state : SessionState
  msgs : List Msg
  queryCalls : List String
  explainCalls : List ExplainCall
deriving Repr

/-- The Find Anomalies button handler (lines 117–121): when clicked it
stores the widget date and sets `anomalies`, `selected_anomaly` and
`selected_index` to `None`; otherwise the state is untouched. -/
def confirmDateReset (inp : RunInput) (s : SessionState) : SessionState :=
  if inp.findClicked then
    { selected_date := some inp.date_input
    , anomalies := none
    , selected_anomaly := none
    , selected_index := none }
  else s

/-- `st.selectbox` over `options` (lines 161–165): the widget's value is
always one of `options`; the user's pick if it is an option, else the
default (the first option). -/
def selectbox (options : List Nat) (pick : Nat) : Nat :=
  if pick ∈ options then pick else options.headD 0

/-- Messages rendered on a committed explanation (lines 201–244): the
report text, and — when the result carries an `anomaly` record — the three
detail metrics. -/
def successMsgs (gr : GenResult) (expl : String) : List Msg :=
  [.report expl] ++
    (match gr.anomaly with
     | some a =>
       [ .metricTimestamp (anomalyDetails a).timestamp
       , .metricActivity (anomalyDetails a).activity
       , .metricConfidence (anomalyDetails a).confidence ]
     | none => [])

/-- Lines 196–251: the guard `if result and 'explanation' in result and
result['explanation']` commits the result to
`st.session_state['selected_anomaly']` and renders the report; every other
outcome — the call raised, a falsy result, a missing `explanation` key, an
empty explanation string — renders an error and leaves the state alone. -/
def handleExplainResult (s : SessionState) (res : Except String (Option GenResult)) :
    SessionState × List Msg :=
  match res with
  | .error e => (s, [.error ("Error generating explanation: " ++ e)])
  | .ok r =>
    match r with
    | some gr =>
      match gr.explanation with
      | some expl =>
        if expl.isEmpty then
          (s, [.error "Failed to generate explanation. Please try again."])
        else
          ({ s with selected_anomaly := some gr }, successMsgs gr expl)
      | none => (s, [.error "Failed to generate explanation. Please try again."])
    | none => (s, [.error "Failed to generate explanation. Please try again."])

/-- The predicate the spec calls generator failure: the call raised, or its
result fails the commit guard of lines 196–197. -/
def genFailed : Except String (Option GenResult) → Bool
  | .error _ => true
  | .ok none => true
  | .ok (some gr) =>
    match gr.explanation with
    | none => true
    | some expl => expl.isEmpty

/-- The two messages of the empty-result branch (lines 130–132). -/
def noAnomMsgs (d : String) : List Msg :=
  [ .warning ("No anomalies detected on " ++ d)
  , .info "Try selecting a different date." ]

/-- The idle prompt of the `else` branch (lines 258–275). -/
def idleMsgs : List Msg :=
  [.info "Please select a date and click Find Anomalies to begin analysis"]

/-- One rerun of the main flow (lines 115–259) given the prior session
state, the widget values, the `__main__` environment and the external
collaborators.  Follows the source order: button handler, then the
`selected_date` truthiness guard, then the query inside `try`, then the
empty/None check, then table + selectbox, then the optional generator call
inside the inner `try`. -/
def runMain (c : Collab) (df : DataFrame) (menv : MainEnv) (inp : RunInput)
    (s0 : SessionState) : RunResult :=
  let s1 := confirmDateReset inp s0
  match s1.selected_date with
  | none => { state := s1, msgs := idleMsgs, queryCalls := [], explainCalls := [] }
  | some d =>
    if d.isEmpty then
      { state := s1, msgs := idleMsgs, queryCalls := [], explainCalls := [] }
    else
      match c.query d df with
      | .error e =>
        { state := s1
        , msgs := [.error ("Error loading anomalies: " ++ e)]
        , queryCalls := [d], explainCalls := [] }
      | .ok qres =>
        match qres with
        | none =>
          { state := s1, msgs := noAnomMsgs d, queryCalls := [d], explainCalls := [] }
        | some as =>
          if as.isEmpty then
            { state := s1, msgs := noAnomMsgs d, queryCalls := [d], explainCalls := [] }
          else
            let s2 := { s1 with anomalies := some as }
            let summary := anomaly_summary as
            let headMsgs : List Msg :=
              [.success ("Found anomalies on " ++ d), .table summary]
            let selected := selectbox (List.range as.length) inp.pick
            let s3 := { s2 with selected_index := some selected }
            if inp.generateClicked then
              let aux := gatherShap menv
              let hr := handleExplainResult s3 (c.explain d selected df aux)
              { state := hr.1
              , msgs := headMsgs ++ hr.2
              , queryCalls := [d]
              , explainCalls := [⟨d, selected, aux⟩] }
            else
              { state := s3, msgs := headMsgs, queryCalls := [d], explainCalls := [] }

/-- Messages of the two start-up halt branches (lines 78–84 and 89–100). -/
def haltMsgs : HaltReason → List Msg
  | .functionsMissing =>
    [ .error "Required functions not found!"
    , .info "Make sure anomaly_functions.py exists or run the notebook cells that define the functions" ]
  | .dataMissing =>
    [ .error "Prediction DataFrame not found!"
    , .info "Run your notebook to create full_pivot_df or test_pivot_df and save it to a pickle file in this directory" ]

/-- One full script run: start-up (load + checks, lines 57–101) and, only
when it did not `st.stop`, the main flow.  On a halt nothing after the
`st.stop` runs: no date widget, no query, no explanation request, and the
session state is left as it was. -/
def runApp (env : LoadEnv) (f : FnEnv) (c : Collab) (menv : MainEnv)
    (inp : RunInput) (s0 : SessionState) : RunResult :=
  match scriptInit env f with
  | .halted r => { state := s0, msgs := haltMsgs r, queryCalls := [], explainCalls := [] }
  | .ready df => runMain c df menv inp s0

/-! ## `setup_streamlit.py`: `save_for_streamlit` (lines 11–31) -/

/-- Environment `save_for_streamlit` observes: whether each dataframe name
is in `globals()`, and whether writing the corresponding pickle raises
(`some msg` = the `open`/`pickle.dump` of that file raises `msg`). -/
structure SetupEnv where
  hasFull : Bool
  hasTest : Bool
  dumpFullErr : Option String
  dumpTestErr : Option String

/-- Observable outcome of the function: files created on disk (opening with
mode `wb` creates the file even when the dump then raises), lines printed,
and an exception escaping to the caller, if any. -/
structure SetupOutcome where
  filesWritten : List String
  printed : List String
  raised : Option String
deriving Repr, DecidableEq

/-- The prints after the pickle block (lines 25–28), reached whenever no
exception occurred earlier — also when neither dataframe exists. -/
def setupFooter : List String :=
  [ "Functions will be imported directly from notebook context"
  , "To use Streamlit app:"
  , "1. Make sure this script has run"
  , "2. Run: streamlit run streamlit_app.py" ]

/-- The `try` block of `save_for_streamlit` (lines 14–28): dump
`full_pivot_df` if it exists, else `test_pivot_df` if it exists, else write
nothing; then the footer prints.  `raised` is the exception escaping the
block, to be caught by the `except` clause. -/
def saveBody (env : SetupEnv) : SetupOutcome :=
  if env.hasFull then
    match env.dumpFullErr with
    | some e => { filesWritten := ["full_pivot_df.pkl"], printed := [], raised := some e }
    | none =>
      { filesWritten := ["full_pivot_df.pkl"]
      , printed := "Saved full_pivot_df.pkl" :: setupFooter
      , raised := none }
  else if env.hasTest then
    match env.dumpTestErr with
    | some e => { filesWritten := ["test_pivot_df.pkl"], printed := [], raised := some e }
    | none =>
      { filesWritten := ["test_pivot_df.pkl"]
      , printed := "Saved test_pivot_df.pkl" :: setupFooter
      , raised := none }
  else { filesWritten := [], printed := setupFooter, raised := none }

/-- `save_for_streamlit` (lines 11–31): the whole body runs under
`try … except Exception as e: print(f"Error: …")`, so an exception from
the body is reported as a printed line and the function returns normally.
-/
def save_for_streamlit (env : SetupEnv) : SetupOutcome :=
  let b := saveBody env
  match b.raised with
  | some e =>
    { filesWritten := b.filesWritten
    , printed := b.printed ++ ["Error: " ++ e]
    , raised := none }
  | none => b

/-! ## Concrete fixtures used by witnesses -/

/-- A loader environment in which every data source is absent. -/
def envNoData : LoadEnv :=
  { fullPklExists := false, fullPklData := [], testPklExists := false
  , testPklData := [], importMainOk := true, mainFull := none, mainTest := none }

/-- A function environment in which `anomaly_functions` imports fine. -/
def fnOk : FnEnv :=
  { anomalyFunctionsOk := true, codeNewImportOk := false, codeNewHasGet := false
  , codeNewHasExplain := false, mainHasGet := false, mainHasExplain := false }

/-- A record with every optional field present. -/
def recA : ResultRecord :=
  { timestamp := some "2011-06-01 08:00:00", activity := some "Sleeping"
  , confidence := some (9 / 10), features := [] }

/-- A record lacking `Activity` and `Prediction_Confidence`. -/
def recBare : ResultRecord :=
  { timestamp := some "2011-06-01 09:30:00", activity := none
  , confidence := none, features := [("Kitchen_Motion", "1")] }

/-- Collaborators: the query matches only `"2011-06-01"` (one anomaly); the
generator returns a falsy result. -/
def collabEmptyGen : Collab :=
  { query := fun d _ => if d = "2011-06-01" then .ok (some [recA]) else .ok (some [])
  , explain := fun _ _ _ _ => .ok none }

/-- A `__main__` whose import fails, so no SHAP artifact is obtainable. -/
def menvNone : MainEnv :=
  { importOk := false, shap_values := none, X := none, explainer := none, scaler := none }

/-- Widget values: Find Anomalies clicked on 2011-06-01, no generation. -/
def inpFind : RunInput :=
  { date_input := "2011-06-01", findClicked := true, pick := 0, generateClicked := false }

/-- A blank session state. -/
def s0Blank : SessionState :=
  { selected_date := none, anomalies := none, selected_anomaly := none
  , selected_index := none }

/-- A stale session state: old date, old list, old selection, old report. -/
def staleState : SessionState :=
  { selected_date := some "2011-05-30"
  , anomalies := some [recA, recBare]
  , selected_anomaly := some { explanation := some "old report", anomaly := some recA, extra := [] }
  , selected_index := some 1 }

/-- Widget values: Find Anomalies clicked on 2011-06-02 (a date with no
anomalies under `collabEmptyGen`). -/
def inpFind2 : RunInput :=
  { date_input := "2011-06-02", findClicked := true, pick := 0, generateClicked := false }

/-- Widget values: no new date confirmed, Generate LLM Explanation clicked.
-/
def inpGen : RunInput :=
  { date_input := "2011-06-01", findClicked := false, pick := 0, generateClicked := true }

/-- Widget values: Find Anomalies and Generate clicked in the same rerun.
-/
def inpFindGen : RunInput :=
  { date_input := "2011-06-01", findClicked := true, pick := 0, generateClicked := true }

/-- A state in the anomaly-chosen position for 2011-06-01, still holding an
older committed explanation. -/
def chosenState : SessionState :=
  { selected_date := some "2011-06-01"
  , anomalies := some [recA]
  , selected_anomaly := some { explanation := some "old report", anomaly := some recA, extra := [] }
  , selected_index := some 0 }

/-! ## Helper lemmas -/

/-- On any failed generator outcome the handler keeps the state unchanged.
-/
theorem handleExplain_fail_fst (s : SessionState) (res : Except String (Option GenResult))
    (h : genFailed res = true) :
    (handleExplainResult s res).1 = s := by
  rcases res with e | r
  · rfl
  · rcases r with _ | gr
    · rfl
    · rcases hx : gr.explanation with _ | expl
      · simp [handleExplainResult, hx]
      · have hemp : expl.isEmpty = true := by simpa [genFailed, hx] using h
        simp [handleExplainResult, hx, hemp]

/-- On any failed generator outcome the handler renders exactly one error
message. -/
theorem handleExplain_fail_snd (s : SessionState) (res : Except String (Option GenResult))
    (h : genFailed res = true) :
    ∃ e, (handleExplainResult s res).2 = [Msg.error e] := by
  rcases res with e | r
  · exact ⟨"Error generating explanation: " ++ e, rfl⟩
  · rcases r with _ | gr
    · exact ⟨"Failed to generate explanation. Please try again.", rfl⟩
    · rcases hx : gr.explanation with _ | expl
      · refine ⟨"Failed to generate explanation. Please try again.", ?_⟩
        simp [handleExplainResult, hx]
      · have hemp : expl.isEmpty = true := by simpa [genFailed, hx] using h
        refine ⟨"Failed to generate explanation. Please try again.", ?_⟩
        simp [handleExplainResult, hx, hemp]

/-- The handler never touches the materialized anomaly list. -/
theorem handleExplain_keeps_anomalies (s : SessionState)
    (res : Except String (Option GenResult)) :
    (handleExplainResult s res).1.anomalies = s.anomalies := by
  rcases res with e | r
  · rfl
  · rcases r with _ | gr
    · rfl
    · rcases hx : gr.explanation with _ | expl
      · simp [handleExplainResult, hx]
      · by_cases hemp : expl.isEmpty <;> simp [handleExplainResult, hx, hemp]

/-- The handler never touches the selected index. -/
theorem handleExplain_keeps_index (s : SessionState)
    (res : Except String (Option GenResult)) :
    (handleExplainResult s res).1.selected_index = s.selected_index := by
  rcases res with e | r
  · rfl
  · rcases r with _ | gr
    · rfl
    · rcases hx : gr.explanation with _ | expl
      · simp [handleExplainResult, hx]
      · by_cases hemp : expl.isEmpty <;> simp [handleExplainResult, hx, hemp]

/-- The handler never touches the stored date. -/
theorem handleExplain_keeps_date (s : SessionState)
    (res : Except String (Option GenResult)) :
    (handleExplainResult s res).1.selected_date = s.selected_date := by
  rcases res with e | r
  · rfl
  · rcases r with _ | gr
    · rfl
    · rcases hx : gr.explanation with _ | expl
      · simp [handleExplainResult, hx]
      · by_cases hemp : expl.isEmpty <;> simp [handleExplainResult, hx, hemp]

/-- The selectbox over `range n` yields an in-range index. -/
theorem selectbox_range_lt (n pick : Nat) (h : 0 < n) :
    selectbox (List.range n) pick < n := by
  unfold selectbox
  by_cases hp : pick ∈ List.range n
  · simpa [hp] using List.mem_range.mp hp
  · rcases n with _ | m
    · omega
    · rw [if_neg hp, List.range_succ_eq_map]
      simp

/-- What one rerun does on the generate path: date present and non-empty,
query returned a non-empty list, Generate clicked. -/
theorem runMain_generate_eq (c : Collab) (df : DataFrame) (menv : MainEnv)
    (inp : RunInput) (s0 : SessionState) (d : String) (as : List ResultRecord)
    (hsd : (confirmDateReset inp s0).selected_date = some d)
    (hne : d.isEmpty = false)
    (hq : c.query d df = .ok (some as))
    (has : as.isEmpty = false)
    (hg : inp.generateClicked = true) :
    runMain c df menv inp s0 =
      { state := (handleExplainResult
            { confirmDateReset inp s0 with
              anomalies := some as
            , selected_index := some (selectbox (List.range as.length) inp.pick) }
            (c.explain d (selectbox (List.range as.length) inp.pick) df
              (gatherShap menv))).1
      , msgs := [Msg.success ("Found anomalies on " ++ d),
                 Msg.table (anomaly_summary as)] ++
          (handleExplainResult
            { confirmDateReset inp s0 with
              anomalies := some as
            , selected_index := some (selectbox (List.range as.length) inp.pick) }
            (c.explain d (selectbox (List.range as.length) inp.pick) df
              (gatherShap menv))).2
      , queryCalls := [d]
      , explainCalls :=
          [⟨d, selectbox (List.range as.length) inp.pick, gatherShap menv⟩] } := by
  simp [runMain, hsd, hne, hq, has, hg]

/-! ## Claim theorems -/

/-- C1: the Result Store is resolved by trying, in this fixed priority
order, the snapshot file `full_pivot_df.pkl`, the snapshot file
`test_pivot_df.pkl`, the in-memory `__main__.full_pivot_df`, and the
in-memory `__main__.test_pivot_df`; the first source that resolves wins,
and the result is exactly that one source's table — no two sources are
ever merged. -/
theorem spec_C1_loader_priority (env : LoadEnv) :
    loadResultStore env = firstSome (loaderSources env) := by
  rcases env with ⟨fp, fd, tp, td, im, mf, mt⟩
  cases fp <;> cases tp <;> cases im <;> cases mf <;> cases mt <;>
    simp [loadResultStore, load_prediction_data, loaderSources, firstSome,
      mainFullSource, mainTestSource]

/-- C7: a record missing the `Activity` field renders as the sentinel
`"Unknown"`, and one missing `Prediction_Confidence` renders as `0`, both
in the summary-table row and in the anomaly-detail metrics; the rendering
does not fail (both constructions are total). -/
theorem spec_C7_missing_fields_default (idx : Nat) (r : ResultRecord)
    (ha : r.activity = none) (hc : r.confidence = none) :
    (summaryRow idx r).activity = "Unknown" ∧
    (summaryRow idx r).confidence = 0 ∧
    (anomalyDetails r).activity = "Unknown" ∧
    (anomalyDetails r).confidence = 0 ∧
    anomaly_summary [r] = [summaryRow 0 r] := by
  refine ⟨?_, ?_, ?_, ?_, rfl⟩ <;> simp [summaryRow, anomalyDetails, ha, hc]

/-- Witness for C7 at the concrete record `recBare`. -/
theorem spec_C7_missing_fields_default_witness :
    (summaryRow 0 recBare).activity = "Unknown" ∧
    (summaryRow 0 recBare).confidence = 0 ∧
    (anomalyDetails recBare).activity = "Unknown" ∧
    (anomalyDetails recBare).confidence = 0 ∧
    anomaly_summary [recBare] = [summaryRow 0 recBare] :=
  spec_C7_missing_fields_default 0 recBare rfl rfl

/-- C2: the script halts with the data-unavailable error exactly when the
required functions resolved but no data source did (both pickle files
absent and neither in-memory table available); and in that case the run
stops right there — no query, no explanation request, session state
untouched, only the error plus corrective instructions are rendered.
(When the functions are missing too, the script halts even earlier with
the functions error, so it still refuses to proceed.) -/
theorem spec_C2_data_unavailable_halts (env : LoadEnv) (f : FnEnv) (c : Collab)
    (menv : MainEnv) (inp : RunInput) (s0 : SessionState) :
    (scriptInit env f = .halted .dataMissing ↔
      (functionsResolved f = true ∧ env.fullPklExists = false ∧
       env.testPklExists = false ∧ mainFullSource env = none ∧
       mainTestSource env = none)) ∧
    (scriptInit env f = .halted .dataMissing →
      runApp env f c menv inp s0 =
        { state := s0, msgs := haltMsgs .dataMissing
        , queryCalls := [], explainCalls := [] }) := by
  constructor
  · by_cases hf : functionsResolved f = true
    · rcases env with ⟨fp, fd, tp, td, im, mf, mt⟩
      cases fp <;> cases tp <;> cases im <;> cases mf <;> cases mt <;>
        simp [scriptInit, loadResultStore, load_prediction_data,
          mainFullSource, mainTestSource, hf]
    · simp [scriptInit, hf]
  · intro h
    unfold runApp
    rw [h]

/-- Witness for C2: all sources absent, functions available. -/
theorem spec_C2_data_unavailable_halts_witness :
    (scriptInit envNoData fnOk = .halted .dataMissing ↔
      (functionsResolved fnOk = true ∧ envNoData.fullPklExists = false ∧
       envNoData.testPklExists = false ∧ mainFullSource envNoData = none ∧
       mainTestSource envNoData = none)) ∧
    (scriptInit envNoData fnOk = .halted .dataMissing →
      runApp envNoData fnOk collabEmptyGen menvNone inpFind s0Blank =
        { state := s0Blank, msgs := haltMsgs .dataMissing
        , queryCalls := [], explainCalls := [] }) :=
  spec_C2_data_unavailable_halts envNoData fnOk collabEmptyGen menvNone inpFind s0Blank

/-- C3: whatever the prior session state — stale anomaly list, selection,
index or explanation included — clicking Find Anomalies resets all of them
to absent and stores the new date, and the rest of the rerun (the new
date's query included) sees only that reset state: the run's outcome is
independent of the prior state. -/
theorem spec_C3_confirm_clears_state (inp : RunInput) (s0 s0' : SessionState)
    (c : Collab) (df : DataFrame) (menv : MainEnv)
    (h : inp.findClicked = true) :
    confirmDateReset inp s0 =
      { selected_date := some inp.date_input, anomalies := none
      , selected_anomaly := none, selected_index := none } ∧
    runMain c df menv inp s0 = runMain c df menv inp s0' := by
  have hr : ∀ s : SessionState, confirmDateReset inp s =
      { selected_date := some inp.date_input, anomalies := none
      , selected_anomaly := none, selected_index := none } := by
    intro s; simp [confirmDateReset, h]
  refine ⟨hr s0, ?_⟩
  unfold runMain
  rw [hr s0, hr s0']

/-- Witness for C3: confirming a date from a stale state with a prior
selection and explanation. -/
theorem spec_C3_confirm_clears_state_witness :
    confirmDateReset inpFind staleState =
      { selected_date := some inpFind.date_input, anomalies := none
      , selected_anomaly := none, selected_index := none } ∧
    runMain collabEmptyGen [] menvNone inpFind staleState =
      runMain collabEmptyGen [] menvNone inpFind s0Blank :=
  spec_C3_confirm_clears_state inpFind staleState s0Blank collabEmptyGen [] menvNone rfl

/-- C4: when the query for the confirmed date yields no anomalies (an empty
dataframe or `None`), the rerun ends in the date-confirmed state with the
informational warning of lines 130–132 — which contains no error message,
unlike the store-unavailable feedback — and nothing raises or halts. -/
theorem spec_C4_no_anomalies_informational (c : Collab) (df : DataFrame)
    (menv : MainEnv) (inp : RunInput) (s0 : SessionState)
    (hb : inp.findClicked = true) (hd : inp.date_input.isEmpty = false)
    (hq : c.query inp.date_input df = .ok (some []) ∨
          c.query inp.date_input df = .ok none) :
    runMain c df menv inp s0 =
      { state := { selected_date := some inp.date_input, anomalies := none
                 , selected_anomaly := none, selected_index := none }
      , msgs := noAnomMsgs inp.date_input
      , queryCalls := [inp.date_input], explainCalls := [] } ∧
    (noAnomMsgs inp.date_input).all (fun m => !m.isError) = true ∧
    (haltMsgs .dataMissing).any Msg.isError = true := by
  refine ⟨?_, ?_, ?_⟩
  · rcases hq with hq | hq <;>
      simp [runMain, confirmDateReset, hb, hd, hq]
  · simp [noAnomMsgs, Msg.isError]
  · simp [haltMsgs, Msg.isError]

/-- Witness for C4: 2011-06-02 has no anomalies under `collabEmptyGen`. -/
theorem spec_C4_no_anomalies_informational_witness :
    runMain collabEmptyGen [] menvNone inpFind2 s0Blank =
      { state := { selected_date := some inpFind2.date_input, anomalies := none
                 , selected_anomaly := none, selected_index := none }
      , msgs := noAnomMsgs inpFind2.date_input
      , queryCalls := [inpFind2.date_input], explainCalls := [] } ∧
    (noAnomMsgs inpFind2.date_input).all (fun m => !m.isError) = true ∧
    (haltMsgs .dataMissing).any Msg.isError = true :=
  spec_C4_no_anomalies_informational collabEmptyGen [] menvNone inpFind2 s0Blank
    rfl rfl (Or.inl rfl)

/-- C5: whenever the generator fails — it raises, returns a falsy result,
returns a result without an `explanation` key, or returns an empty
explanation string — the stored `selected_anomaly` is left exactly as it
was, the anomaly list and selected index survive (the state stays
AnomalyChosen-equivalent, so the request can be re-triggered), and the
rerun renders the success header, the table, and one error message — never
a partial report. -/
theorem spec_C5_generation_failure_no_partial (c : Collab) (df : DataFrame)
    (menv : MainEnv) (inp : RunInput) (s0 : SessionState) (d : String)
    (as : List ResultRecord)
    (hnc : inp.findClicked = false)
    (hsd : s0.selected_date = some d)
    (hne : d.isEmpty = false)
    (hq : c.query d df = .ok (some as))
    (has : as.isEmpty = false)
    (hg : inp.generateClicked = true)
    (hfail : genFailed (c.explain d (selectbox (List.range as.length) inp.pick) df
        (gatherShap menv)) = true) :
    (runMain c df menv inp s0).state.selected_anomaly = s0.selected_anomaly ∧
    (runMain c df menv inp s0).state.anomalies = some as ∧
    (runMain c df menv inp s0).state.selected_index =
      some (selectbox (List.range as.length) inp.pick) ∧
    ∃ e, (runMain c df menv inp s0).msgs =
      [Msg.success ("Found anomalies on " ++ d), Msg.table (anomaly_summary as),
       Msg.error e] := by
  have hcd : confirmDateReset inp s0 = s0 := by simp [confirmDateReset, hnc]
  have hsd' : (confirmDateReset inp s0).selected_date = some d := by rw [hcd, hsd]
  rw [runMain_generate_eq c df menv inp s0 d as hsd' hne hq has hg]
  rw [handleExplain_fail_fst _ _ hfail]
  obtain ⟨e, he⟩ := handleExplain_fail_snd
    { confirmDateReset inp s0 with
      anomalies := some as
    , selected_index := some (selectbox (List.range as.length) inp.pick) }
    (c.explain d (selectbox (List.range as.length) inp.pick) df (gatherShap menv)) hfail
  rw [he]
  exact ⟨by simp [hcd], by simp, by simp, e, rfl⟩

/-- Witness for C5: the `collabEmptyGen` generator returns a falsy result;
the previously committed report survives untouched. -/
theorem spec_C5_generation_failure_no_partial_witness :
    (runMain collabEmptyGen [] menvNone inpGen chosenState).state.selected_anomaly =
      chosenState.selected_anomaly ∧
    (runMain collabEmptyGen [] menvNone inpGen chosenState).state.anomalies =
      some [recA] ∧
    (runMain collabEmptyGen [] menvNone inpGen chosenState).state.selected_index =
      some (selectbox (List.range [recA].length) inpGen.pick) ∧
    ∃ e, (runMain collabEmptyGen [] menvNone inpGen chosenState).msgs =
      [Msg.success ("Found anomalies on " ++ "2011-06-01"),
       Msg.table (anomaly_summary [recA]), Msg.error e] :=
  spec_C5_generation_failure_no_partial collabEmptyGen [] menvNone inpGen
    chosenState "2011-06-01" [recA] rfl rfl rfl rfl rfl rfl rfl

/-- C6: the explanation request is only reachable with an in-range index:
every invocation of the external generator recorded by a rerun carries an
index `i` with `0 ≤ i < len(anomalies)` for the materialized list (the
selectbox offers exactly `range(len(anomalies))`), so no out-of-range
attempt ever reaches `explain_single_anomaly`. -/
theorem spec_C6_explain_index_in_range (c : Collab) (df : DataFrame)
    (menv : MainEnv) (inp : RunInput) (s0 : SessionState) (call : ExplainCall)
    (h : call ∈ (runMain c df menv inp s0).explainCalls) :
    ∃ as, (runMain c df menv inp s0).state.anomalies = some as ∧
      call.index < as.length := by
  rcases hsd : (confirmDateReset inp s0).selected_date with _ | d
  · simp [runMain, hsd] at h
  · by_cases hne : d.isEmpty
    · simp [runMain, hsd, hne] at h
    · rcases hq : c.query d df with e | qres
      · simp [runMain, hsd, hne, hq] at h
      · rcases qres with _ | as
        · simp [runMain, hsd, hne, hq] at h
        · by_cases has : as.isEmpty
          · simp [runMain, hsd, hne, hq, has] at h
          · by_cases hg : inp.generateClicked
            · have hne' : d.isEmpty = false := by simpa using hne
              have has' : as.isEmpty = false := by simpa using has
              have hg' : inp.generateClicked = true := by simpa using hg
              rw [runMain_generate_eq c df menv inp s0 d as hsd hne' hq has' hg'] at h ⊢
              simp only [List.mem_singleton] at h
              refine ⟨as, ?_, ?_⟩
              · rw [handleExplain_keeps_anomalies]
              · rw [h]
                have hlen : 0 < as.length := by
                  cases as
                  · simp at has
                  · simp
                exact selectbox_range_lt as.length inp.pick hlen
            · simp [runMain, hsd, hne, hq, has, hg] at h

/-- Witness for C6: the one generator call of a generate rerun is at index
0 of the single-element list. -/
theorem spec_C6_explain_index_in_range_witness :
    ∃ as, (runMain collabEmptyGen [] menvNone inpGen chosenState).state.anomalies =
        some as ∧
      (ExplainCall.mk "2011-06-01" 0
        { shap_values := none, X := none, explainer := none, scaler := none }).index
        < as.length :=
  spec_C6_explain_index_in_range collabEmptyGen [] menvNone inpGen chosenState
    ⟨"2011-06-01", 0, { shap_values := none, X := none, explainer := none, scaler := none }⟩
    (by rw [runMain_generate_eq collabEmptyGen [] menvNone inpGen chosenState
          "2011-06-01" [recA] rfl rfl rfl rfl rfl]
        simp [selectbox, gatherShap, menvNone, inpGen])

/-- C8: when no SHAP artifact can be obtained (the `__main__` import fails,
or the attributes are absent), the generator is still invoked, with every
auxiliary argument `None`; the unavailability of attribution artifacts
never skips the request. -/
theorem spec_C8_aux_context_optional (c : Collab) (df : DataFrame)
    (menv : MainEnv) (inp : RunInput) (s0 : SessionState) (as : List ResultRecord)
    (hb : inp.findClicked = true)
    (hd : inp.date_input.isEmpty = false)
    (hq : c.query inp.date_input df = .ok (some as))
    (has : as.isEmpty = false)
    (hg : inp.generateClicked = true) :
    (runMain c df menv inp s0).explainCalls =
      [⟨inp.date_input, selectbox (List.range as.length) inp.pick, gatherShap menv⟩] ∧
    (menv.importOk = false →
      gatherShap menv = ⟨none, none, none, none⟩) ∧
    gatherShap { importOk := true, shap_values := none, X := none
               , explainer := none, scaler := none } = ⟨none, none, none, none⟩ := by
  have hsd : (confirmDateReset inp s0).selected_date = some inp.date_input := by
    simp [confirmDateReset, hb]
  refine ⟨?_, ?_, rfl⟩
  · rw [runMain_generate_eq c df menv inp s0 inp.date_input as hsd hd hq has hg]
  · intro him
    simp [gatherShap, him]

/-- Witness for C8: `menvNone` offers no artifact; the call still happens
with all-`None` auxiliary context. -/
theorem spec_C8_aux_context_optional_witness :
    (runMain collabEmptyGen [] menvNone inpFindGen s0Blank).explainCalls =
      [⟨inpFindGen.date_input, selectbox (List.range [recA].length) inpFindGen.pick,
        gatherShap menvNone⟩] ∧
    (menvNone.importOk = false →
      gatherShap menvNone = ⟨none, none, none, none⟩) ∧
    gatherShap { importOk := true, shap_values := none, X := none
               , explainer := none, scaler := none } = ⟨none, none, none, none⟩ :=
  spec_C8_aux_context_optional collabEmptyGen [] menvNone inpFindGen s0Blank [recA]
    rfl rfl rfl rfl rfl

/-- C10: `save_for_streamlit` never lets an exception escape to its caller
(every body exception is caught and reported as an `Error:` print, after
which the function returns normally), and when neither `full_pivot_df` nor
`test_pivot_df` exists in its globals it writes no file at all. -/
theorem spec_C10_save_never_raises (env : SetupEnv) (dfe dte : Option String)
    (t : Bool) (e e' : String) :
    (save_for_streamlit env).raised = none ∧
    (save_for_streamlit ⟨false, false, dfe, dte⟩).filesWritten = [] ∧
    (save_for_streamlit ⟨true, t, some e, dte⟩).printed = ["Error: " ++ e] ∧
    (save_for_streamlit ⟨false, true, dfe, some e'⟩).printed = ["Error: " ++ e'] := by
  refine ⟨?_, rfl, rfl, rfl⟩
  rcases env with ⟨hf, ht, dfe', dte'⟩
  cases hf <;> cases ht <;> cases dfe' <;> cases dte' <;> rfl

end IoTDashboard
